import Mathlib

/-!
Verification development for the subscription-pricing simulator.

The Python modules are shallowly embedded as follows:
* `config.py` / `models.py` / `objectives.py` / `simulation.py` /
  `price_optimizer.py`: real-valued definitions; the globally seeded NumPy
  generator is threaded explicitly as a state parameter.
* `forecaster_user.py` (elasticity prediction), the scalar path of
  `forecaster_cost.py`, and `optimization.py`: rational-valued, computable
  definitions.
* the Poisson capacity machinery of `forecaster_cost.py`: real-valued
  definitions using `Real.exp` and `Real.log`.
Machine floats are idealised as exact arithmetic throughout.
Python exceptions are modelled with `Except PyErr`.
-/

open scoped Classical

namespace Module6

/-- Python-level exceptions raised by the embedded code. -/
inductive PyErr where
  | keyError (key : String)
  | valueError (msg : String)
  | indexError (msg : String)
  | typeError (msg : String)
  deriving DecidableEq

deriving instance DecidableEq for Except

/-! ### config.py

`Config._apply_defaults` guarantees that the nine defaulted keys are present,
so they are total fields; the premium keys are only present when the config
file provides them, so they are `Option` fields.  `months` is an integer
(it is only used as the bound of `range(1, months + 1)`). -/

/-- A parameter mapping as produced by `Config` after `_apply_defaults`. -/
structure Params where
  months : Int
  initial_users : ℝ
  growth_rate : ℝ
  churn_rate : ℝ
  monthly_price : ℝ
  cost_ratio : ℝ
  yearly_discount : ℝ
  avg_usage : ℝ
  price_per_unit : ℝ
  premium_monthly_price : Option ℝ
  premium_yearly_discount : Option ℝ

/-- The default parameter set of `Config._apply_defaults` (no config file). -/
def defaultParams : Params where
  months := 24
  initial_users := 1000
  growth_rate := 0.08
  churn_rate := 0.03
  monthly_price := 10
  cost_ratio := 0.6
  yearly_discount := 0.85
  avg_usage := 20
  price_per_unit := 0.5
  premium_monthly_price := none
  premium_yearly_discount := none

/-! ### The NumPy global generator

`np.random` is a process-wide generator: `np.random.seed(s)` resets its state
as a pure function of `s`, and every draw is a pure function of the current
state.  The embedding abstracts over the state type and the draw operations
actually used by the repository. -/

/-- Interface to the globally seeded NumPy random generator. -/
structure NumpyRandom (σ : Type) where
  /-- `np.random.seed(s)` -/
  seedFn : ℕ → σ
  /-- `np.random.poisson(lam=1)` -/
  poisson1 : σ → ℕ × σ
  /-- `np.random.uniform(5, 15)` -/
  uniform5to15 : σ → ℝ × σ
  /-- `np.random.normal(1, 0.1)` -/
  normal1to01 : σ → ℝ × σ
  /-- `np.random.lognormal(mean=2.5, sigma=0.6, size=100)` -/
  lognormal100 : σ → List ℝ × σ

/-- A trivial generator instance, used to state closed facts about code paths
that do not depend on the drawn values. -/
def unitRng : NumpyRandom Unit where
  seedFn := fun _ => ()
  poisson1 := fun g => (0, g)
  uniform5to15 := fun g => (0, g)
  normal1to01 := fun g => (0, g)
  lognormal100 := fun g => ([], g)

/-! ### models.py -/

/-- The closed set of pricing-model classes defined in `models.py`. -/
inductive PricingVariant where
  | flatMonthly
  | yearlySubscription
  | premiumMonthly
  | premiumYearlySubscription
  | usageBased
  deriving DecidableEq

/-- `effective_price_per_user(params)` of each variant.  The premium variants
index `params["premium_monthly_price"]`, which raises `KeyError` when the key
is absent; `yearly_discount` and `premium_yearly_discount` are read with
`.get` defaults 0.85 and 0.70. -/
def effective_price_per_user (m : PricingVariant) (p : Params) : Except PyErr ℝ :=
  match m with
  | .flatMonthly => .ok p.monthly_price
  | .yearlySubscription => .ok (p.monthly_price * p.yearly_discount)
  | .premiumMonthly =>
      match p.premium_monthly_price with
      | some v => .ok v
      | none => .error (.keyError "premium_monthly_price")
  | .premiumYearlySubscription =>
      match p.premium_monthly_price with
      | some v => .ok (v * p.premium_yearly_discount.getD 0.70)
      | none => .error (.keyError "premium_monthly_price")
  | .usageBased => .ok (p.avg_usage * p.price_per_unit)

/-- `calculate_revenue(users, params)` of each variant; `UsageBased` draws a
Poisson spike count, a uniform spike magnitude and a normal noise factor from
the global generator. -/
noncomputable def calculate_revenue {σ : Type} (rng : NumpyRandom σ) (m : PricingVariant)
    (users : ℝ) (p : Params) (g : σ) : Except PyErr (ℝ × σ) :=
  match m with
  | .flatMonthly => .ok (users * p.monthly_price, g)
  | .yearlySubscription => .ok (users * (p.monthly_price * 12 * p.yearly_discount) / 12, g)
  | .premiumMonthly =>
      match p.premium_monthly_price with
      | some v => .ok (users * v, g)
      | none => .error (.keyError "premium_monthly_price")
  | .premiumYearlySubscription =>
      match p.premium_monthly_price with
      | some v => .ok (users * (v * 12 * p.premium_yearly_discount.getD 0.70) / 12, g)
      | none => .error (.keyError "premium_monthly_price")
  | .usageBased =>
      let s1 := rng.poisson1 g
      let s2 := rng.uniform5to15 s1.2
      let spike_usage := (s1.1 : ℝ) * s2.1
      let s3 := rng.normal1to01 s2.2
      let total_usage := (p.avg_usage + spike_usage) * s3.1
      .ok (users * total_usage * p.price_per_unit, s3.2)

/-! ### objectives.py -/

/-- `np.mean` of a 1-d array (NumPy yields NaN on an empty array; the
division-by-zero convention of `ℝ` stands in for that junk value). -/
noncomputable def npMean (l : List ℝ) : ℝ := l.sum / l.length

/-- `np.std` of a 1-d array (population standard deviation, ddof = 0). -/
noncomputable def npStd (l : List ℝ) : ℝ :=
  Real.sqrt (npMean (l.map (fun x => (x - npMean l) ^ 2)))

/-- `np.clip(x, lo, hi)`. -/
noncomputable def npClip (x lo hi : ℝ) : ℝ := min (max x lo) hi

/-- `objectives.revenue_growth_curve`: 0 for fewer than two points or an
all-zero series, otherwise the mean period-over-period relative delta
(denominator offset by 1e-9), clipped to [-1, 1] and rescaled to [0, 1]. -/
noncomputable def revenue_growth_curve (revenues : List ℝ) : ℝ :=
  if revenues.length < 2 ∨ ∀ x ∈ revenues, x = 0 then 0
  else
    let growth_rates := List.zipWith (fun prev next => (next - prev) / (prev + 1e-9))
      revenues revenues.tail
    let avg_growth := npClip (npMean growth_rates) (-1) 1
    (avg_growth + 1) / 2

/-- `objectives.customer_satisfaction(price, churn_rate, base_price=10)`.
The `base_price` parameter defaults to 10 in the source; call sites that omit
it are embedded passing 10 explicitly. -/
noncomputable def customer_satisfaction (price churn_rate base_price : ℝ) : ℝ :=
  let base := max 0 (1 - churn_rate)
  let price_penalty := max 0 (price / base_price - 1) * 0.5
  npClip (base - price_penalty) 0 1

/-- `objectives.fairness_metric(user_usages, user_prices)`: one minus the
clipped coefficient of variation of the per-user price/usage ratios
(ratio 0 where the usage is 0). -/
noncomputable def fairness_metric (user_usages user_prices : List ℝ) : ℝ :=
  let ratios := List.zipWith (fun priceU usageU => if usageU ≠ 0 then priceU / usageU else 0)
    user_prices user_usages
  let inequality := npStd ratios / (npMean ratios + 1e-9)
  1 - npClip inequality 0 1

/-! ### simulation.py -/

/-- `Simulation.dynamic_churn(price, base_churn)`.  There is no clamping in
the source: the returned churn can be negative.  Python raises
`ZeroDivisionError` when the configured `monthly_price` is 0; theorems about
this function therefore assume `cfg.monthly_price ≠ 0`. -/
noncomputable def dynamic_churn (cfg : Params) (price base_churn : ℝ) : ℝ :=
  base_churn + 0.01 * ((price / cfg.monthly_price) - 1) * 10

/-- `Simulation.dynamic_growth(month, base_growth)` with decay rate 0.04. -/
noncomputable def dynamic_growth (month : ℕ) (base_growth : ℝ) : ℝ :=
  base_growth * Real.exp (-(0.04) * month)

/-- `Simulation.dynamic_cost_ratio(users, base_cost_ratio)`. -/
noncomputable def dynamic_cost_ratio (users base_cost_ratio : ℝ) : ℝ :=
  let scale_factor := Real.logb 10 (users + 10) / 4
  let improvement := 0.1 * scale_factor
  base_cost_ratio * (1 - improvement)

/-- The `for month in range(1, months + 1)` loop of `Simulation.run_once`,
threading (users, churn, generator state) and returning the revenue and
profit trajectories in month order together with the final users, the final
churn and the final generator state. -/
noncomputable def simLoop {σ : Type} (rng : NumpyRandom σ) (cfg : Params) (m : PricingVariant)
    (base_growth base_churn base_cost_ratio price : ℝ) :
    ℕ → ℕ → ℝ → ℝ → σ → Except PyErr (List ℝ × List ℝ × ℝ × ℝ × σ)
  | _, 0, users, churn, g => .ok ([], [], users, churn, g)
  | month, fuel + 1, users, churn, g =>
      let growth := dynamic_growth month base_growth
      let churn1 := dynamic_churn cfg price base_churn
      let cost_ratio := dynamic_cost_ratio users base_cost_ratio
      let new_users := users * growth
      let lost_users := users * churn1
      let users1 := max (users + new_users - lost_users) 0
      match calculate_revenue rng m users1 cfg g with
      | .error e => .error e
      | .ok (revenue, g1) =>
          let cost := revenue * cost_ratio
          let profit := revenue - cost
          match simLoop rng cfg m base_growth base_churn base_cost_ratio price
              (month + 1) fuel users1 churn1 g1 with
          | .error e => .error e
          | .ok (revs, profs, usersF, churnF, gF) =>
              .ok (revenue :: revs, profit :: profs, usersF, churnF, gF)

/-- The metrics dictionary returned by `Simulation.run_once`. -/
structure Metrics where
  profits : List ℝ
  revenues : List ℝ
  revenue_growth : ℝ
  satisfaction : ℝ
  fairness : ℝ

/-- `Simulation.run_once(seed)`: seeds the global generator when `seed` is
given, runs the monthly loop, draws the synthetic fairness sample and builds
the metrics dictionary.  The per-user price assignment depends on the model
class name exactly as in the source. -/
noncomputable def run_once {σ : Type} (rng : NumpyRandom σ) (cfg : Params) (m : PricingVariant)
    (seed : Option ℕ) (g0 : σ) : Except PyErr (Metrics × σ) :=
  let g := match seed with
    | some s => rng.seedFn s
    | none => g0
  let base_churn := cfg.churn_rate
  match effective_price_per_user m cfg with
  | .error e => .error e
  | .ok price =>
      match simLoop rng cfg m cfg.growth_rate base_churn cfg.cost_ratio price
          1 cfg.months.toNat cfg.initial_users base_churn g with
      | .error e => .error e
      | .ok (revenues, profits, _usersF, churnF, g1) =>
          let s2 := rng.lognormal100 g1
          let user_usages := s2.1
          let user_prices :=
            match m with
            | .usageBased => user_usages.map (fun u => u * (price / npMean user_usages))
            | .yearlySubscription => user_usages.map (fun _ => price)
            | _ => user_usages.map (fun _ => price * 1.05)
          .ok ({ profits := profits
                 revenues := revenues
                 revenue_growth := revenue_growth_curve revenues
                 satisfaction := customer_satisfaction price churnF 10
                 fairness := fairness_metric user_usages user_prices }, s2.2)

/-- A value of the metrics dictionary (NumPy array or scalar). -/
inductive MetricValue where
  | arr (xs : List ℝ)
  | scalar (x : ℝ)

/-- The literal dictionary built at the end of `run_once`, as an association
list in source order.  These five keys are all the keys the dictionary has. -/
def metricsToDict (m : Metrics) : List (String × MetricValue) :=
  [("profits", .arr m.profits),
   ("revenues", .arr m.revenues),
   ("revenue_growth", .scalar m.revenue_growth),
   ("satisfaction", .scalar m.satisfaction),
   ("fairness", .scalar m.fairness)]

/-- Elementwise `np.mean(axis=0)` over a list of equal-length rows (NumPy
yields NaN scalars on an empty run collection, with a warning, but does not
raise; the empty list stands in for that). -/
noncomputable def meanAxis0 (rows : List (List ℝ)) : List ℝ :=
  match rows with
  | [] => []
  | r0 :: _ => (List.range r0.length).map (fun j => npMean (rows.map (fun row => row.getD j 0)))

/-- Elementwise `np.std(axis=0)` over a list of equal-length rows. -/
noncomputable def stdAxis0 (rows : List (List ℝ)) : List ℝ :=
  match rows with
  | [] => []
  | r0 :: _ => (List.range r0.length).map (fun j => npStd (rows.map (fun row => row.getD j 0)))

/-- The aggregate statistics dictionary returned by `Simulation.multi_run`. -/
structure Stats where
  mean_profit : List ℝ
  std_profit : List ℝ
  mean_revenue : List ℝ
  revenue_growth : ℝ
  satisfaction : ℝ
  fairness : ℝ

/-- `Simulation.multi_run(runs)`: executes `run_once(seed=i)` for
`i in range(runs)` and reduces the collected metrics.  There is no run-count
validation anywhere in the source: a non-positive `runs` gives an empty loop
and the aggregation of an empty collection (NaN means in NumPy, with a
runtime warning only — no exception). -/
noncomputable def multi_run {σ : Type} (rng : NumpyRandom σ) (cfg : Params) (m : PricingVariant)
    (runs : Int) (g : σ) : Except PyErr Stats :=
  match (List.range runs.toNat).mapM
      (fun i => (run_once rng cfg m (some i) g).map Prod.fst) with
  | .error e => .error e
  | .ok ms =>
      .ok { mean_profit := meanAxis0 (ms.map Metrics.profits)
            std_profit := stdAxis0 (ms.map Metrics.profits)
            mean_revenue := meanAxis0 (ms.map Metrics.revenues)
            revenue_growth := npMean (ms.map Metrics.revenue_growth)
            satisfaction := npMean (ms.map Metrics.satisfaction)
            fairness := npMean (ms.map Metrics.fairness) }

/-! ### price_optimizer.py -/

/-- The price keys `test_price_range` is documented to override
("monthly_price", "premium_monthly_price"). -/
inductive PriceKey where
  | monthly_price
  | premium_monthly_price
  deriving DecidableEq

/-- `cfg.params[price_key] = p`. -/
def setParam (cfg : Params) (k : PriceKey) (v : ℝ) : Params :=
  match k with
  | .monthly_price => { cfg with monthly_price := v }
  | .premium_monthly_price => { cfg with premium_monthly_price := some v }

/-- One row of the `results` list built by `test_price_range`. -/
structure PriceTestRow where
  price : ℝ
  profit : ℝ
  users : ℝ

/-- Python `max(xs, key=f)` on a non-empty list: the first element attaining
the maximal key (the accumulator is replaced only on strict increase). -/
def pyMaxBy {α β : Type} [LinearOrder β] (f : α → β) (x : α) (xs : List α) : α :=
  xs.foldl (fun acc y => if f acc < f y then y else acc) x

/-- The price loop of `test_price_range`: for each price, override the key,
run one simulation (unseeded, so the global generator state is threaded) and
read `stats["profits"][-1]` and `stats["final_users"]` from the metrics
dictionary. -/
noncomputable def price_test_loop {σ : Type} (rng : NumpyRandom σ) (m : PricingVariant)
    (cfg : Params) (price_key : PriceKey) :
    List ℝ → σ → Except PyErr (List PriceTestRow × σ)
  | [], g => .ok ([], g)
  | p :: ps, g =>
      let cfg1 := setParam cfg price_key p
      match run_once rng cfg1 m none g with
      | .error e => .error e
      | .ok (mets, g1) =>
          match (metricsToDict mets).lookup "profits" with
          | none => .error (.keyError "profits")
          | some (.scalar _) => .error (.typeError "object is not subscriptable")
          | some (.arr profits_arr) =>
              match profits_arr.getLast? with
              | none => .error (.indexError "index -1 is out of bounds")
              | some final_profit =>
                  match (metricsToDict mets).lookup "final_users" with
                  | none => .error (.keyError "final_users")
                  | some (.arr _) => .error (.typeError "unexpected array")
                  | some (.scalar final_users) =>
                      match price_test_loop rng m cfg price_key ps g1 with
                      | .error e => .error e
                      | .ok (rows, gF) =>
                          .ok ({ price := p, profit := final_profit,
                                 users := final_users } :: rows, gF)

/-- `price_optimizer.test_price_range`: runs the price loop, then takes the
profit-maximising and user-maximising rows with Python `max(..., key=...)`. -/
noncomputable def test_price_range {σ : Type} (rng : NumpyRandom σ) (m : PricingVariant)
    (cfg : Params) (price_key : PriceKey) (price_values : List ℝ) (g : σ) :
    Except PyErr (PriceTestRow × PriceTestRow × List PriceTestRow) :=
  match price_test_loop rng m cfg price_key price_values g with
  | .error e => .error e
  | .ok ([], _) => .error (.valueError "max() arg is an empty sequence")
  | .ok (r0 :: rest, _) =>
      .ok (pyMaxBy PriceTestRow.profit r0 rest, pyMaxBy PriceTestRow.users r0 rest, r0 :: rest)

/-! ### forecaster_user.py (rational-valued, computable) -/

/-- The diagnostics dictionary of `forecast_next_active_users`. -/
structure TrendDiag where
  p_up : ℚ
  expected_change : ℚ
  forecast_next : ℚ
  deriving DecidableEq

/-- `forecaster_user.forecast_next_active_users(users)`: binomial MLE of the
probability of an increase combined with the mean up/down magnitudes. -/
def forecast_next_active_users (users : List ℚ) : Except PyErr (ℚ × TrendDiag) :=
  if users.length < 2 then
    .error (.valueError "Need at least 2 data points to compute changes.")
  else
    let lastU := users.getLast?.getD 0
    let deltas := List.zipWith (fun a b => b - a) users users.tail
    let up_changes := deltas.filter (fun d => decide (0 < d))
    let down_changes := deltas.filter (fun d => decide (d < 0))
    let k : ℚ := up_changes.length
    let n : ℚ := up_changes.length + down_changes.length
    if n = 0 then
      .ok (lastU, { p_up := 0.5, expected_change := 0, forecast_next := lastU })
    else
      let p_up := k / n
      let mu_up := if up_changes.length = 0 then 0 else up_changes.sum / up_changes.length
      let mu_down := if down_changes.length = 0 then 0 else down_changes.sum / down_changes.length
      let expected_change := p_up * mu_up + (1 - p_up) * mu_down
      let forecast_next := lastU + expected_change
      .ok (forecast_next,
           { p_up := p_up, expected_change := expected_change, forecast_next := forecast_next })

/-- The dictionary returned by `PriceElasticityModel.predict_users`. -/
structure ElasticityResult where
  elasticity_used : ℚ
  predicted_users : ℚ
  user_loss : ℚ
  deriving DecidableEq

/-- `PriceElasticityModel.predict_users(current_price, new_price,
current_users)`.  The model state is the fitted coefficient
`self.elasticity_` (`none` before a successful `fit`; `fit` itself is a
log-log least-squares estimate not needed by the claims below). -/
def predict_users (elasticity_ : Option ℚ) (current_price new_price current_users : ℚ) :
    Except PyErr ElasticityResult :=
  match elasticity_ with
  | none => .error (.valueError "Model not fitted yet. Call fit(prices, users) first.")
  | some b =>
      if current_price ≤ 0 ∨ new_price ≤ 0 then
        .error (.valueError "Prices must be positive.")
      else if current_users < 0 then
        .error (.valueError "Current users cannot be negative.")
      else
        let pct_change_price := (new_price - current_price) / current_price
        let pct_change_users := b * pct_change_price
        let q1 := current_users * (1 + pct_change_users)
        .ok { elasticity_used := b, predicted_users := q1, user_loss := current_users - q1 }

/-! ### forecaster_cost.py, scalar path (rational-valued, computable)

`forecast_server_load_one_step` returns the scalar `lam = users * rate`
(its Poisson diagnostics are real-valued and embedded separately below for
the capacity claims; they cannot raise, so they do not affect this path). -/

/-- Input validation and scalar result of `forecast_server_load_one_step`. -/
def forecast_server_load_scalar (forecasted_users avg_requests_per_user : ℚ) :
    Except PyErr ℚ :=
  if forecasted_users < 0 then .error (.valueError "forecasted_users cannot be negative.")
  else if avg_requests_per_user < 0 then
    .error (.valueError "avg_requests_per_user cannot be negative.")
  else .ok (forecasted_users * avg_requests_per_user)

/-- `forecast_total_usage_over_horizon`: sums the per-step expected loads. -/
def forecast_total_usage_scalar (forecasted_users_list : List ℚ)
    (avg_requests_per_user : ℚ) : Except PyErr ℚ :=
  forecasted_users_list.foldlM
    (fun acc u => (forecast_server_load_scalar u avg_requests_per_user).map (acc + ·)) 0

/-- `forecaster_cost.compute_expected_cost`. -/
def compute_expected_cost (total_expected_requests cost_per_request : ℚ) : Except PyErr ℚ :=
  if total_expected_requests < 0 then
    .error (.valueError "total_expected_requests cannot be negative.")
  else if cost_per_request < 0 then .error (.valueError "cost_per_request cannot be negative.")
  else .ok (total_expected_requests * cost_per_request)

/-! ### optimization.py (rational-valued, computable) -/

/-- One evaluated price candidate (the open-ended diagnostics bag is not
carried: no claim reads it). -/
structure PriceOptionResult where
  price : ℚ
  predicted_users : ℚ
  user_growth : ℚ
  revenue : ℚ
  expected_usage : ℚ
  expected_cost : ℚ
  profit : ℚ
  score : ℚ
  deriving DecidableEq

/-- `optimization._combine_trend_and_price_effect`. -/
def combine_trend_and_price_effect (trend_next_users current_users elasticity_predicted : ℚ) : ℚ :=
  if current_users ≤ 0 then max trend_next_users 0
  else max (trend_next_users * (elasticity_predicted / current_users)) 0

/-- `optimization.evaluate_price_option` (score left 0, set later by
`optimize_price`). -/
def evaluate_price_option (new_price current_price : ℚ) (historical_users : List ℚ)
    (elasticity_ : Option ℚ) (avg_requests_per_user cost_per_request : ℚ) :
    Except PyErr PriceOptionResult :=
  if historical_users.length < 1 then
    .error (.valueError "historical_users must contain at least one value.")
  else
    let current_users := historical_users.getLast?.getD 0
    match forecast_next_active_users historical_users with
    | .error e => .error e
    | .ok (trend_next_users, _) =>
        match predict_users elasticity_ current_price new_price current_users with
        | .error e => .error e
        | .ok er =>
            let predicted_users :=
              combine_trend_and_price_effect trend_next_users current_users er.predicted_users
            let user_growth := predicted_users - current_users
            let revenue := new_price * predicted_users
            match forecast_total_usage_scalar [predicted_users] avg_requests_per_user with
            | .error e => .error e
            | .ok expected_usage =>
                match compute_expected_cost expected_usage cost_per_request with
                | .error e => .error e
                | .ok expected_cost =>
                    .ok { price := new_price
                          predicted_users := predicted_users
                          user_growth := user_growth
                          revenue := revenue
                          expected_usage := expected_usage
                          expected_cost := expected_cost
                          profit := revenue - expected_cost
                          score := 0 }

/-- The objective literals accepted by `optimize_price`. -/
inductive Objective where
  | user_growth
  | profit
  | hybrid
  deriving DecidableEq

/-- Python truthiness `x or dflt` on a float (0.0 is the only falsy float). -/
def pyOr (x dflt : ℚ) : ℚ := if x = 0 then dflt else x

/-- Maximum of a non-empty mapped list (`max(f(r) for r in rs)`). -/
def listMax {α : Type} (f : α → ℚ) (x : α) (xs : List α) : ℚ :=
  xs.foldl (fun acc y => max acc (f y)) (f x)

/-- Minimum of a non-empty mapped list. -/
def listMin {α : Type} (f : α → ℚ) (x : α) (xs : List α) : ℚ :=
  xs.foldl (fun acc y => min acc (f y)) (f x)

/-- The score assigned by `optimize_price` once the normalisation constants
of the whole evaluated set are known. -/
def scoreFn (objective : Objective) (hybrid_weight_growth max_users min_profit profit_range : ℚ)
    (r : PriceOptionResult) : ℚ :=
  match objective with
  | .user_growth => r.predicted_users
  | .profit => r.profit
  | .hybrid =>
      hybrid_weight_growth * (r.predicted_users / max_users) +
        (1 - hybrid_weight_growth) * ((r.profit - min_profit) / profit_range)

/-- `optimization.optimize_price`: validates the hybrid weight, evaluates the
grid in order, computes the normalisation constants (`max_users` with the
Python `or 1.0` truthiness fallback, `profit_range` floored at 1e-9), scores
every result and returns Python `max(evaluated, key=score)` together with the
scored list.  An empty grid raises `max()` arg is an empty sequence. -/
def optimize_price (price_grid : List ℚ) (current_price : ℚ) (historical_users : List ℚ)
    (elasticity_ : Option ℚ) (avg_requests_per_user cost_per_request : ℚ)
    (objective : Objective) (hybrid_weight_growth : ℚ) :
    Except PyErr (PriceOptionResult × List PriceOptionResult) :=
  if ¬ (0 ≤ hybrid_weight_growth ∧ hybrid_weight_growth ≤ 1) then
    .error (.valueError "hybrid_weight_growth must be between 0 and 1.")
  else
    match price_grid.mapM (fun p =>
        evaluate_price_option p current_price historical_users elasticity_
          avg_requests_per_user cost_per_request) with
    | .error e => .error e
    | .ok [] => .error (.valueError "max() arg is an empty sequence")
    | .ok (e0 :: erest) =>
        let max_users := pyOr (listMax PriceOptionResult.predicted_users e0 erest) 1
        let max_profit := listMax PriceOptionResult.profit e0 erest
        let min_profit := listMin PriceOptionResult.profit e0 erest
        let profit_range := max (max_profit - min_profit) 1e-9
        let score := scoreFn objective hybrid_weight_growth max_users min_profit profit_range
        let s0 := { e0 with score := score e0 }
        let srest := erest.map (fun r => { r with score := score r })
        .ok (pyMaxBy PriceOptionResult.score s0 srest, s0 :: srest)

/-! ### forecaster_cost.py, Poisson capacity machinery (real-valued)

`poisson_pmf` is computed in log space in the source
(`exp(-lam + k*log(lam) - lgamma(k+1))`, with `lgamma(k+1) = log(k!)`), with
a special case for `lam = 0`; the `k < 0` guard is vacuous here since `k` is
a natural number. -/

/-- `forecaster_cost.poisson_pmf(k, lam)`. -/
noncomputable def poisson_pmf (k : ℕ) (lam : ℝ) : ℝ :=
  if lam = 0 then (if k = 0 then 1 else 0)
  else Real.exp (-lam + k * Real.log lam - Real.log (Nat.factorial k))

/-- `forecaster_cost.poisson_cdf(k, lam)`: the exact cumulative sum
`sum(poisson_pmf(i, lam) for i in range(0, k + 1))`. -/
noncomputable def poisson_cdf (k : ℕ) (lam : ℝ) : ℝ :=
  ∑ i ∈ Finset.range (k + 1), poisson_pmf i lam

/-- The `while C <= upper_bound` search of `forecast_server_load_one_step`,
with the remaining number of admissible positions as fuel: it breaks at the
first `C` with `cdf(C, lam) >= coverage_prob`, or returns the first position
past the bound when the fuel runs out. -/
noncomputable def capacity_search (lam coverage_prob : ℝ) : ℕ → ℕ → ℕ
  | c, 0 => c
  | c, fuel + 1 =>
      if coverage_prob ≤ poisson_cdf c lam then c
      else capacity_search lam coverage_prob (c + 1) fuel

/-- `upper_bound = int(lam * 10 + 1000) if lam > 0 else 1000` (for positive
`lam` the argument is positive, so `int` truncation equals the floor). -/
noncomputable def capacity_upper_bound (lam : ℝ) : ℕ :=
  if 0 < lam then (⌊lam * 10 + 1000⌋).toNat else 1000

/-- The diagnostics dictionary of `forecast_server_load_one_step`. -/
structure LoadDiagnostics where
  lam : ℝ
  expected_load : ℝ
  pmf_table : List (ℕ × ℝ)
  capacity_for_coverage : ℕ
  coverage_probability : ℝ

/-- `forecaster_cost.forecast_server_load_one_step(forecasted_users,
avg_requests_per_user, coverage_prob)`: validates the inputs, sets
`lam = U * r`, tabulates the pmf on `[max(0, lam - 4*std), lam + 4*std]` and
searches for the coverage capacity. -/
noncomputable def forecast_server_load_one_step
    (forecasted_users avg_requests_per_user coverage_prob : ℝ) :
    Except PyErr (ℝ × LoadDiagnostics) :=
  if forecasted_users < 0 then .error (.valueError "forecasted_users cannot be negative.")
  else if avg_requests_per_user < 0 then
    .error (.valueError "avg_requests_per_user cannot be negative.")
  else
    let lam := forecasted_users * avg_requests_per_user
    let std := if 0 < lam then Real.sqrt lam else 0
    let k_min := (max 0 ⌊lam - 4 * std⌋).toNat
    let k_max := (max 0 ⌊lam + 4 * std⌋).toNat
    let pmf_table := (List.range (k_max + 1 - k_min)).map
      (fun j => (k_min + j, poisson_pmf (k_min + j) lam))
    let c := capacity_search lam coverage_prob 0 (capacity_upper_bound lam + 1)
    .ok (lam, { lam := lam
                expected_load := lam
                pmf_table := pmf_table
                capacity_for_coverage := c
                coverage_probability := coverage_prob })

/-! ### Concrete inputs used by the claims -/

/-- The configuration of the end-to-end example: months 3, defaults
otherwise except as listed. -/
def cfgC1 : Params :=
  { defaultParams with
    months := 3, initial_users := 1000, growth_rate := 0.08, churn_rate := 0.03,
    monthly_price := 10, cost_ratio := 0.6 }

/-- The default configuration with a zero-month horizon. -/
def cfgMonths0 : Params := { defaultParams with months := 0 }

/-- The default configuration with one month and a doubled price. -/
def cfgPrice20 : Params := { defaultParams with monthly_price := 20 }

/-- Concrete evaluation of the grid price 10 (trend 1200, no price change). -/
def eOptA : PriceOptionResult :=
  { price := 10, predicted_users := 1200, user_growth := 100, revenue := 12000,
    expected_usage := 3600, expected_cost := 72, profit := 11928, score := 0 }

/-- Concrete evaluation of the grid price 12 (elasticity −3/2 shrinks the
trend forecast to 840). -/
def eOptB : PriceOptionResult :=
  { price := 12, predicted_users := 840, user_growth := -260, revenue := 10080,
    expected_usage := 2520, expected_cost := 252/5, profit := 50148/5, score := 0 }

/-- `eOptA` scored under the profit objective. -/
def porA : PriceOptionResult := { eOptA with score := 11928 }

/-- `eOptB` scored under the profit objective. -/
def porB : PriceOptionResult := { eOptB with score := 50148/5 }

/-- `eOptA` scored under the user-growth objective. -/
def porC : PriceOptionResult := { eOptA with score := 1200 }

/-- `eOptB` scored under the user-growth objective. -/
def porD : PriceOptionResult := { eOptB with score := 840 }

/-! ## Theorems -/

/-- When a model has a defined effective price for a configuration, its
revenue computation succeeds for every user count and generator state. -/
lemma calculate_revenue_ok {σ : Type} (rng : NumpyRandom σ) (m : PricingVariant)
    (cfg : Params) (price : ℝ) (heff : effective_price_per_user m cfg = .ok price) :
    ∀ users g, ∃ v g2, calculate_revenue rng m users cfg g = .ok (v, g2) := by
  intro users g
  cases m with
  | flatMonthly => exact ⟨_, _, rfl⟩
  | yearlySubscription => exact ⟨_, _, rfl⟩
  | usageBased => exact ⟨_, _, rfl⟩
  | premiumMonthly =>
      cases hp : cfg.premium_monthly_price with
      | none => rw [effective_price_per_user, hp] at heff; exact absurd heff (by simp)
      | some v => exact ⟨_, _, by rw [calculate_revenue, hp]⟩
  | premiumYearlySubscription =>
      cases hp : cfg.premium_monthly_price with
      | none => rw [effective_price_per_user, hp] at heff; exact absurd heff (by simp)
      | some v => exact ⟨_, _, by rw [calculate_revenue, hp]⟩

/-- The monthly loop succeeds whenever revenue computation does, produces
trajectories of length `fuel`, and its final churn is the (month-independent)
dynamic churn as soon as at least one iteration ran. -/
lemma simLoop_ok {σ : Type} (rng : NumpyRandom σ) (cfg : Params) (m : PricingVariant)
    (bg bc bcr price : ℝ)
    (hca : ∀ users g, ∃ v g2, calculate_revenue rng m users cfg g = .ok (v, g2)) :
    ∀ fuel month users churn g, ∃ revs profs uF cF gF,
      simLoop rng cfg m bg bc bcr price month fuel users churn g
          = .ok (revs, profs, uF, cF, gF) ∧
        revs.length = fuel ∧ profs.length = fuel ∧
        cF = if fuel = 0 then churn else dynamic_churn cfg price bc := by
  intro fuel
  induction fuel with
  | zero =>
      intro month users churn g
      exact ⟨[], [], users, churn, g, rfl, rfl, rfl, by simp⟩
  | succ n ih =>
      intro month users churn g
      obtain ⟨v, g2, hv⟩ :=
        hca (max (users + users * dynamic_growth month bg - users * dynamic_churn cfg price bc) 0) g
      obtain ⟨revs, profs, uF, cF, gF, hrec, hl1, hl2, hcF⟩ :=
        ih (month + 1)
          (max (users + users * dynamic_growth month bg - users * dynamic_churn cfg price bc) 0)
          (dynamic_churn cfg price bc) g2
      refine ⟨v :: revs, (v - v * dynamic_cost_ratio users bcr) :: profs, uF, cF, gF, ?_,
        by simp [hl1], by simp [hl2], ?_⟩
      · simp only [simLoop, hv, hrec]
      · rw [if_neg (Nat.succ_ne_zero n)]
        rcases eq_or_ne n 0 with h | h <;> simp [h] at hcF <;> exact hcF

/-- One-step unfolding of the loop: with at least one month of fuel the
trajectories start with the first-month revenue and profit, computed from the
updated user count and the cost ratio at the pre-update user count. -/
lemma simLoop_head {σ : Type} (rng : NumpyRandom σ) (cfg : Params) (m : PricingVariant)
    (bg bc bcr price : ℝ)
    (hca : ∀ users g, ∃ v g2, calculate_revenue rng m users cfg g = .ok (v, g2)) :
    ∀ fuel month users churn g, ∃ v revs profs uF cF gF g2,
      calculate_revenue rng m
          (max (users + users * dynamic_growth month bg - users * dynamic_churn cfg price bc) 0)
          cfg g = .ok (v, g2) ∧
        simLoop rng cfg m bg bc bcr price month (fuel + 1) users churn g
          = .ok (v :: revs, (v - v * dynamic_cost_ratio users bcr) :: profs, uF, cF, gF) := by
  intro fuel month users churn g
  obtain ⟨v, g2, hv⟩ :=
    hca (max (users + users * dynamic_growth month bg - users * dynamic_churn cfg price bc) 0) g
  obtain ⟨revs, profs, uF, cF, gF, hrec, -⟩ :=
    simLoop_ok rng cfg m bg bc bcr price hca fuel (month + 1)
      (max (users + users * dynamic_growth month bg - users * dynamic_churn cfg price bc) 0)
      (dynamic_churn cfg price bc) g2
  exact ⟨v, revs, profs, uF, cF, gF, g2, hv, by simp only [simLoop, hv, hrec]⟩

/-- `run_once` succeeds whenever the effective price is defined; the
trajectories have one entry per simulated month and the satisfaction metric
is computed against the constant base price 10. -/
lemma run_once_ok {σ : Type} (rng : NumpyRandom σ) (cfg : Params) (m : PricingVariant)
    (seed : Option ℕ) (g : σ) (price : ℝ)
    (heff : effective_price_per_user m cfg = .ok price) :
    ∃ mets gF, run_once rng cfg m seed g = .ok (mets, gF) ∧
      mets.profits.length = cfg.months.toNat ∧
      mets.revenues.length = cfg.months.toNat ∧
      mets.satisfaction = customer_satisfaction price
        (if cfg.months.toNat = 0 then cfg.churn_rate else dynamic_churn cfg price cfg.churn_rate)
        10 := by
  obtain ⟨revs, profs, uF, cF, gF, hloop, hl1, hl2, hcF⟩ :=
    simLoop_ok rng cfg m cfg.growth_rate cfg.churn_rate cfg.cost_ratio price
      (calculate_revenue_ok rng m cfg price heff) cfg.months.toNat 1 cfg.initial_users
      cfg.churn_rate
      (match seed with | some s => rng.seedFn s | none => g)
  simp only [run_once, heff, hloop]
  exact ⟨_, _, rfl, by simpa using hl2, by simpa using hl1, by simp [hcF]⟩


/-- C2 counterexample: no pricing variant of `models.py` has an effective
per-user price of 0.8 × avg_usage (= 16 under the default parameters, where
avg_usage = 20); in particular no `TieredPricing` variant exists — the
variant set is exactly the five classes enumerated in `PricingVariant`. -/
theorem claim_C2_counterexample :
    effective_price_per_user .flatMonthly defaultParams ≠ .ok (0.8 * 20) ∧
    effective_price_per_user .yearlySubscription defaultParams ≠ .ok (0.8 * 20) ∧
    effective_price_per_user .premiumMonthly defaultParams ≠ .ok (0.8 * 20) ∧
    effective_price_per_user .premiumYearlySubscription defaultParams ≠ .ok (0.8 * 20) ∧
    effective_price_per_user .usageBased defaultParams ≠ .ok (0.8 * 20) := by
  refine ⟨by norm_num [effective_price_per_user, defaultParams],
    by norm_num [effective_price_per_user, defaultParams],
    by simp [effective_price_per_user, defaultParams],
    by simp [effective_price_per_user, defaultParams],
    by norm_num [effective_price_per_user, defaultParams]⟩

/-- C2 (amended): `models.py` defines exactly the five variants FlatMonthly,
YearlySubscription, PremiumMonthly, PremiumYearlySubscription and UsageBased;
there is no TieredPricing variant.  Under the default parameters their
effective per-user prices are 10, 8.5, KeyError, KeyError and
avg_usage × price_per_unit = 10 — none equals 0.8 × avg_usage = 16. -/
theorem claim_C2_variant_inventory :
    effective_price_per_user .flatMonthly defaultParams = .ok 10 ∧
    effective_price_per_user .yearlySubscription defaultParams = .ok 8.5 ∧
    effective_price_per_user .premiumMonthly defaultParams
      = .error (.keyError "premium_monthly_price") ∧
    effective_price_per_user .premiumYearlySubscription defaultParams
      = .error (.keyError "premium_monthly_price") ∧
    effective_price_per_user .usageBased defaultParams = .ok 10 := by
  refine ⟨rfl, ?_, rfl, rfl, ?_⟩ <;> norm_num [effective_price_per_user, defaultParams]

/-- C3 counterexample: `dynamic_churn` is not clamped below at 0 — with the
default configuration (baseline price 10), price 0 and base churn 0.03 it
returns −0.07 < 0. -/
theorem claim_C3_counterexample :
    dynamic_churn defaultParams 0 0.03 = -0.07 ∧ dynamic_churn defaultParams 0 0.03 < 0 := by
  norm_num [dynamic_churn, defaultParams]

/-- C3 (amended): for every configuration with a nonzero baseline price and
all prices and base churn rates, `dynamic_churn(price, base)` equals
base + 0.01 × ((price / baseline) − 1) × 10 with NO clamping; it is negative
exactly when price / baseline < 1 − 10 × base. -/
theorem claim_C3_dynamic_churn_formula (cfg : Params) (price base_churn : ℝ)
    (hbp : cfg.monthly_price ≠ 0) :
    dynamic_churn cfg price base_churn
        = base_churn + 0.01 * ((price / cfg.monthly_price) - 1) * 10 ∧
      (dynamic_churn cfg price base_churn < 0 ↔
        price / cfg.monthly_price < 1 - 10 * base_churn) := by
  refine ⟨rfl, ?_⟩
  rw [dynamic_churn]
  constructor <;> intro h <;> nlinarith [h]

/-- Witness for C3 at the default configuration, price 0, base churn 0.03. -/
theorem claim_C3_witness :
    defaultParams.monthly_price ≠ 0 ∧
      (dynamic_churn defaultParams 0 0.03
          = 0.03 + 0.01 * ((0 / defaultParams.monthly_price) - 1) * 10 ∧
        (dynamic_churn defaultParams 0 0.03 < 0 ↔
          0 / defaultParams.monthly_price < 1 - 10 * 0.03)) :=
  ⟨by norm_num [defaultParams],
   claim_C3_dynamic_churn_formula defaultParams 0 0.03 (by norm_num [defaultParams])⟩

/-- C7: `predict_users` on a fitted model with coefficient b, positive prices
and non-negative current users returns
predicted = Q0 × (1 + b × (P1 − P0) / P0) and loss = Q0 − predicted; at
elasticity −1.5, prices 10 → 12 and 1000 users this is 700 and 300. -/
theorem claim_C7_predict_users (b p0 p1 q0 : ℚ) (hp0 : 0 < p0) (hp1 : 0 < p1) (hq : 0 ≤ q0) :
    predict_users (some b) p0 p1 q0
        = .ok { elasticity_used := b
                predicted_users := q0 * (1 + b * (p1 - p0) / p0)
                user_loss := q0 - q0 * (1 + b * (p1 - p0) / p0) } ∧
      predict_users (some (-1.5)) 10 12 1000
        = .ok { elasticity_used := -1.5, predicted_users := 700, user_loss := 300 } := by
  constructor
  · simp only [predict_users]
    rw [if_neg (by simp [not_or, not_le]; exact ⟨hp0, hp1⟩), if_neg (not_lt.mpr hq)]
    simp [mul_div_assoc]
  · simp only [predict_users]
    norm_num

/-- Witness for C7 at the concrete example of the claim. -/
theorem claim_C7_witness :
    (0 : ℚ) < 10 ∧ (0 : ℚ) < 12 ∧ (0 : ℚ) ≤ 1000 ∧
      (predict_users (some (-1.5)) 10 12 1000
          = .ok { elasticity_used := -1.5
                  predicted_users := 1000 * (1 + (-1.5) * (12 - 10) / 10)
                  user_loss := 1000 - 1000 * (1 + (-1.5) * (12 - 10) / 10) } ∧
        predict_users (some (-1.5)) 10 12 1000
          = .ok { elasticity_used := -1.5, predicted_users := 700, user_loss := 300 }) :=
  ⟨by norm_num, by norm_num, by norm_num,
   claim_C7_predict_users (-1.5) 10 12 1000 (by norm_num) (by norm_num) (by norm_num)⟩

/-- C4 counterexample: with a zero-month horizon but a premium model and no
premium price key, `run_once` raises KeyError instead of returning empty
trajectories; and `multi_run` with 0 runs returns aggregate statistics over
zero runs (no `InvalidRunCount` error exists anywhere in the source). -/
theorem claim_C4_counterexample :
    run_once unitRng cfgMonths0 .premiumMonthly none ()
        = .error (.keyError "premium_monthly_price") ∧
      multi_run unitRng defaultParams .flatMonthly 0 ()
        = .ok { mean_profit := [], std_profit := [], mean_revenue := [],
                revenue_growth := 0, satisfaction := 0, fairness := 0 } := by
  constructor
  · rfl
  · simp [multi_run, meanAxis0, stdAxis0, npMean, List.mapM.loop, pure, Except.pure]

/-- C4 (amended): for every configuration with months ≤ 0 whose model has a
defined effective price, `run_once` returns empty profit and revenue
trajectories without error; and `multi_run` with runs ≤ 0 does not fail — it
returns the aggregation of zero runs (NaN means in NumPy, empty trajectories
and zero scalars here). -/
theorem claim_C4_empty_horizon_and_run_count :
    (∀ (σ : Type) (rng : NumpyRandom σ) (cfg : Params) (m : PricingVariant) (seed : Option ℕ)
        (g : σ) (price : ℝ), cfg.months ≤ 0 → effective_price_per_user m cfg = .ok price →
      ∃ mets gF, run_once rng cfg m seed g = .ok (mets, gF) ∧
        mets.profits = [] ∧ mets.revenues = []) ∧
      ∀ (σ : Type) (rng : NumpyRandom σ) (cfg : Params) (m : PricingVariant) (runs : Int)
        (g : σ), runs ≤ 0 →
        multi_run rng cfg m runs g
          = .ok { mean_profit := [], std_profit := [], mean_revenue := [],
                  revenue_growth := 0, satisfaction := 0, fairness := 0 } := by
  constructor
  · intro σ rng cfg m seed g price hm heff
    obtain ⟨mets, gF, hrun, hlp, hlr, -⟩ := run_once_ok rng cfg m seed g price heff
    have h0 : cfg.months.toNat = 0 := Int.toNat_of_nonpos hm
    exact ⟨mets, gF, hrun, List.length_eq_zero.mp (hlp.trans h0),
      List.length_eq_zero.mp (hlr.trans h0)⟩
  · intro σ rng cfg m runs g hr
    simp [multi_run, Int.toNat_of_nonpos hr, meanAxis0, stdAxis0, npMean, List.mapM.loop,
      pure, Except.pure]

/-- Witness for C4 at the zero-month default configuration with the flat
model and a zero run count. -/
theorem claim_C4_witness :
    (cfgMonths0.months ≤ 0 ∧ effective_price_per_user .flatMonthly cfgMonths0 = .ok 10 ∧
      ∃ mets gF, run_once unitRng cfgMonths0 .flatMonthly none () = .ok (mets, gF) ∧
        mets.profits = [] ∧ mets.revenues = []) ∧
      ((0 : Int) ≤ 0 ∧ multi_run unitRng defaultParams .flatMonthly 0 ()
        = .ok { mean_profit := [], std_profit := [], mean_revenue := [],
                revenue_growth := 0, satisfaction := 0, fairness := 0 }) :=
  ⟨⟨by decide, rfl,
    claim_C4_empty_horizon_and_run_count.1 Unit unitRng cfgMonths0 .flatMonthly none () 10
      (by decide) rfl⟩,
   ⟨le_refl 0,
    claim_C4_empty_horizon_and_run_count.2 Unit unitRng defaultParams .flatMonthly 0 ()
      (le_refl 0)⟩⟩

/-- C5: the metrics dictionary built by `run_once` has no "final_users" key,
although `test_price_range` (and `save_to_db`) read it — so any price test
over a non-empty price list fails with KeyError at the first price. -/
theorem claim_C5_missing_final_users :
    (∀ mets : Metrics, (metricsToDict mets).lookup "final_users" = none) ∧
      ∀ (σ : Type) (rng : NumpyRandom σ) (cfg : Params) (key : PriceKey) (p : ℝ) (ps : List ℝ)
        (g : σ), 1 ≤ cfg.months →
        test_price_range rng .flatMonthly cfg key (p :: ps) g
          = .error (.keyError "final_users") := by
  constructor
  · intro mets; rfl
  · intro σ rng cfg key p ps g hm
    obtain ⟨mets, g1, hrun, hlp, -, -⟩ :=
      run_once_ok rng (setParam cfg key p) .flatMonthly none g
        (setParam cfg key p).monthly_price rfl
    have hmonths : (setParam cfg key p).months = cfg.months := by cases key <;> rfl
    have hne : mets.profits ≠ [] := by
      intro h
      rw [h] at hlp
      simp only [List.length_nil, hmonths] at hlp
      omega
    obtain ⟨lastv, hlast⟩ : ∃ v, mets.profits.getLast? = some v := by
      cases h : mets.profits.getLast? with
      | some v => exact ⟨v, rfl⟩
      | none =>
          have := List.getLast?_isSome.mpr hne
          rw [h] at this
          simp at this
    simp only [test_price_range, price_test_loop, hrun, metricsToDict, List.lookup]
    simp [hlast]

/-- Witness for C5 at the default configuration and a single price. -/
theorem claim_C5_witness :
    (1 : Int) ≤ defaultParams.months ∧
      test_price_range unitRng .flatMonthly defaultParams .monthly_price [12] ()
        = .error (.keyError "final_users") :=
  ⟨by decide,
   claim_C5_missing_final_users.2 Unit unitRng defaultParams .monthly_price 12 [] ()
     (by decide)⟩

/-- C10: `run_once` computes the satisfaction metric by calling
`customer_satisfaction` with its default base price 10, not with the
configured monthly price; with a configured price of 20 the two calls
disagree (0.47 against 0.97). -/
theorem claim_C10_satisfaction_base_price :
    (∀ (σ : Type) (rng : NumpyRandom σ) (cfg : Params) (m : PricingVariant) (seed : Option ℕ)
        (g : σ) (price : ℝ), 1 ≤ cfg.months → effective_price_per_user m cfg = .ok price →
      ∃ mets gF, run_once rng cfg m seed g = .ok (mets, gF) ∧
        mets.satisfaction
          = customer_satisfaction price (dynamic_churn cfg price cfg.churn_rate) 10) ∧
      customer_satisfaction 20 (dynamic_churn cfgPrice20 20 0.03) 10
        ≠ customer_satisfaction 20 (dynamic_churn cfgPrice20 20 0.03) 20 := by
  constructor
  · intro σ rng cfg m seed g price hm heff
    obtain ⟨mets, gF, hrun, -, -, hsat⟩ := run_once_ok rng cfg m seed g price heff
    refine ⟨mets, gF, hrun, ?_⟩
    rw [hsat, if_neg (by omega)]
  · have hch : dynamic_churn cfgPrice20 20 0.03 = 0.03 := by
      norm_num [dynamic_churn, cfgPrice20, defaultParams]
    rw [hch]
    norm_num [customer_satisfaction, npClip, max_def, min_def]

/-- Witness for C10 with the doubled-price configuration and the flat
model. -/
theorem claim_C10_witness :
    (1 : Int) ≤ cfgPrice20.months ∧
      effective_price_per_user .flatMonthly cfgPrice20 = .ok 20 ∧
      ∃ mets gF, run_once unitRng cfgPrice20 .flatMonthly none () = .ok (mets, gF) ∧
        mets.satisfaction
          = customer_satisfaction 20 (dynamic_churn cfgPrice20 20 cfgPrice20.churn_rate) 10 :=
  ⟨by decide, rfl,
   claim_C10_satisfaction_base_price.1 Unit unitRng cfgPrice20 .flatMonthly none () 20
     (by decide) rfl⟩

/-- Python `max(xs, key=f)` decomposition: the result is a member, is
maximal, and everything strictly before it in iteration order has a strictly
smaller key (ties are broken in favour of the first maximal element). -/
lemma pyMaxBy_spec {α β : Type} [LinearOrder β] (f : α → β) :
    ∀ (xs : List α) (x : α), ∃ l1 l2,
      x :: xs = l1 ++ pyMaxBy f x xs :: l2 ∧
        (∀ y ∈ x :: xs, f y ≤ f (pyMaxBy f x xs)) ∧
        ∀ y ∈ l1, f y < f (pyMaxBy f x xs) := by
  intro xs
  induction xs with
  | nil =>
      intro x
      refine ⟨[], [], rfl, ?_, by simp⟩
      intro y hy
      rw [List.mem_singleton] at hy
      subst hy
      exact le_rfl
  | cons y ys ih =>
      intro x
      have hstep : pyMaxBy f x (y :: ys) = pyMaxBy f (if f x < f y then y else x) ys := rfl
      by_cases hxy : f x < f y
      · rw [if_pos hxy] at hstep
        obtain ⟨l1, l2, hd, hm, hs⟩ := ih y
        refine ⟨x :: l1, l2, ?_, ?_, ?_⟩
        · rw [hstep, List.cons_append, ← hd]
        · intro z hz
          rw [hstep]
          rcases List.mem_cons.mp hz with rfl | hz2
          · exact le_of_lt (lt_of_lt_of_le hxy (hm y (List.mem_cons_self y ys)))
          · exact hm z hz2
        · intro z hz
          rw [hstep]
          rcases List.mem_cons.mp hz with rfl | hz2
          · exact lt_of_lt_of_le hxy (hm y (List.mem_cons_self y ys))
          · exact hs z hz2
      · have hyx : f y ≤ f x := not_lt.mp hxy
        rw [if_neg hxy] at hstep
        obtain ⟨l1, l2, hd, hm, hs⟩ := ih x
        cases l1 with
        | nil =>
            rw [List.nil_append, List.cons.injEq] at hd
            refine ⟨[], y :: ys, ?_, ?_, by simp⟩
            · rw [List.nil_append, hstep, ← hd.1]
            · intro z hz
              rw [hstep, ← hd.1]
              rcases List.mem_cons.mp hz with rfl | hz2
              · exact le_rfl
              rcases List.mem_cons.mp hz2 with rfl | hz3
              · exact hyx
              · have hz4 := hm z (List.mem_cons_of_mem x hz3)
                rwa [← hd.1] at hz4
        | cons a t =>
            rw [List.cons_append, List.cons.injEq] at hd
            obtain ⟨hxa, hys⟩ := hd
            subst hxa
            refine ⟨x :: y :: t, l2, ?_, ?_, ?_⟩
            · rw [hstep, List.cons_append, List.cons_append, ← hys]
            · intro z hz
              rw [hstep]
              have hxm := hm x (List.mem_cons_self x ys)
              rcases List.mem_cons.mp hz with rfl | hz2
              · exact hxm
              rcases List.mem_cons.mp hz2 with rfl | hz3
              · exact le_trans hyx hxm
              · exact hm z (List.mem_cons_of_mem x hz3)
            · intro z hz
              rw [hstep]
              have hxs : f x < f (pyMaxBy f x ys) := hs x (List.mem_cons_self x t)
              rcases List.mem_cons.mp hz with rfl | hz2
              · exact hxs
              rcases List.mem_cons.mp hz2 with rfl | hz3
              · exact lt_of_le_of_lt hyx hxs
              · exact hs z (List.mem_cons_of_mem x hz3)

/-- Whatever the objective, `optimize_price` returns the first maximal-score
result of the scored list, in grid order. -/
lemma optimize_price_max (grid : List ℚ) (cp : ℚ) (hist : List ℚ) (el : Option ℚ)
    (ar cc : ℚ) (obj : Objective) (w : ℚ) (best : PriceOptionResult)
    (scored : List PriceOptionResult)
    (h : optimize_price grid cp hist el ar cc obj w = .ok (best, scored)) :
    best ∈ scored ∧ (∀ r ∈ scored, r.score ≤ best.score) ∧
      ∃ l1 l2, scored = l1 ++ best :: l2 ∧ ∀ r ∈ l1, r.score < best.score := by
  rw [optimize_price] at h
  split at h
  · exact absurd h (by simp)
  · split at h
    · exact absurd h (by simp)
    · exact absurd h (by simp)
    · simp only [Except.ok.injEq, Prod.mk.injEq] at h
      obtain ⟨hbest, hscored⟩ := h
      subst hbest
      subst hscored
      obtain ⟨l1, l2, hd, hm, hs⟩ := pyMaxBy_spec PriceOptionResult.score _ _
      refine ⟨?_, hm, l1, l2, hd, hs⟩
      rw [hd]
      exact List.mem_append.mpr (Or.inr (List.mem_cons_self _ _))

/-- Every scored result keeps its profit and predicted-users fields, and its
score equals the field selected by the objective. -/
lemma scored_fields (obj : Objective) (w mu mp pr : ℚ) (e0 : PriceOptionResult)
    (erest : List PriceOptionResult) :
    ∀ r ∈ ({ e0 with score := scoreFn obj w mu mp pr e0 } ::
        erest.map (fun r => { r with score := scoreFn obj w mu mp pr r })),
      r.score = scoreFn obj w mu mp pr { r with score := 0 } ∧
        (obj = .profit → r.score = r.profit) ∧
        (obj = .user_growth → r.score = r.predicted_users) := by
  intro r hr
  have key : ∀ r' : PriceOptionResult,
      r = { r' with score := scoreFn obj w mu mp pr r' } →
      r.score = scoreFn obj w mu mp pr { r with score := 0 } ∧
        (obj = .profit → r.score = r.profit) ∧
        (obj = .user_growth → r.score = r.predicted_users) := by
    intro r' hr'
    subst hr'
    cases obj <;> simp [scoreFn]
  rcases List.mem_cons.mp hr with rfl | hr2
  · exact key e0 rfl
  · obtain ⟨r', hr', hre⟩ := List.mem_map.mp hr2
    exact key r' hre.symm

/-- C6: for objective "profit" the returned best candidate has profit ≥
every evaluated candidate, for objective "user_growth" it has
predicted_users ≥ every candidate, and in both cases everything earlier in
grid iteration order has a strictly smaller score — the first maximal
candidate wins ties. -/
theorem claim_C6_optimize_price_ordering :
    (∀ (grid : List ℚ) (cp : ℚ) (hist : List ℚ) (el : Option ℚ) (ar cc w : ℚ)
        (best : PriceOptionResult) (scored : List PriceOptionResult),
      optimize_price grid cp hist el ar cc .profit w = .ok (best, scored) →
        (∀ r ∈ scored, r.profit ≤ best.profit) ∧
          ∃ l1 l2, scored = l1 ++ best :: l2 ∧ ∀ r ∈ l1, r.score < best.score) ∧
      ∀ (grid : List ℚ) (cp : ℚ) (hist : List ℚ) (el : Option ℚ) (ar cc w : ℚ)
        (best : PriceOptionResult) (scored : List PriceOptionResult),
      optimize_price grid cp hist el ar cc .user_growth w = .ok (best, scored) →
        (∀ r ∈ scored, r.predicted_users ≤ best.predicted_users) ∧
          ∃ l1 l2, scored = l1 ++ best :: l2 ∧ ∀ r ∈ l1, r.score < best.score := by
  have main : ∀ (obj : Objective) (grid : List ℚ) (cp : ℚ) (hist : List ℚ) (el : Option ℚ)
      (ar cc w : ℚ) (best : PriceOptionResult) (scored : List PriceOptionResult),
      optimize_price grid cp hist el ar cc obj w = .ok (best, scored) →
      (∀ r ∈ scored,
        (obj = .profit → r.score = r.profit) ∧
          (obj = .user_growth → r.score = r.predicted_users)) := by
    intro obj grid cp hist el ar cc w best scored h
    rw [optimize_price] at h
    split at h
    · exact absurd h (by simp)
    · split at h
      · exact absurd h (by simp)
      · exact absurd h (by simp)
      · simp only [Except.ok.injEq, Prod.mk.injEq] at h
        obtain ⟨hbest, hscored⟩ := h
        subst hscored
        intro r hr
        exact (scored_fields obj _ _ _ _ _ _ r hr).2
  constructor
  · intro grid cp hist el ar cc w best scored h
    obtain ⟨hmem, hle, l1, l2, hd, hs⟩ :=
      optimize_price_max grid cp hist el ar cc .profit w best scored h
    have hf := main .profit grid cp hist el ar cc w best scored h
    refine ⟨?_, l1, l2, hd, hs⟩
    intro r hr
    have h1 := hle r hr
    rw [(hf r hr).1 rfl, (hf best hmem).1 rfl] at h1
    exact h1
  · intro grid cp hist el ar cc w best scored h
    obtain ⟨hmem, hle, l1, l2, hd, hs⟩ :=
      optimize_price_max grid cp hist el ar cc .user_growth w best scored h
    have hf := main .user_growth grid cp hist el ar cc w best scored h
    refine ⟨?_, l1, l2, hd, hs⟩
    intro r hr
    have h1 := hle r hr
    rw [(hf r hr).2 rfl, (hf best hmem).2 rfl] at h1
    exact h1

lemma eval_C6_trend : forecast_next_active_users [1000, 1100]
    = .ok (1200, { p_up := 1, expected_change := 100, forecast_next := 1200 }) := by
  norm_num [forecast_next_active_users, List.getLast?, List.filter, List.zipWith]

lemma eval_C6_e10 : evaluate_price_option 10 10 [1000, 1100] (some (-3/2)) 3 (1/50)
    = .ok eOptA := by
  norm_num [evaluate_price_option, eval_C6_trend, predict_users,
    combine_trend_and_price_effect, forecast_total_usage_scalar, forecast_server_load_scalar,
    compute_expected_cost, List.getLast?, List.foldlM, Except.map, max_def, eOptA]

lemma eval_C6_e12 : evaluate_price_option 12 10 [1000, 1100] (some (-3/2)) 3 (1/50)
    = .ok eOptB := by
  norm_num [evaluate_price_option, eval_C6_trend, predict_users,
    combine_trend_and_price_effect, forecast_total_usage_scalar, forecast_server_load_scalar,
    compute_expected_cost, List.getLast?, List.foldlM, Except.map, max_def, eOptB]

lemma eval_C6_profit : optimize_price [10, 12] 10 [1000, 1100] (some (-3/2)) 3 (1/50)
    .profit (1/2) = .ok (porA, [porA, porB]) := by
  rw [optimize_price, if_neg (by norm_num)]
  rw [show List.mapM (fun p => evaluate_price_option p 10 [1000, 1100] (some (-3/2)) 3 (1/50))
        [10, 12] = .ok [eOptA, eOptB] from by
    simp only [List.mapM, List.mapM.loop, eval_C6_e10, eval_C6_e12]
    rfl]
  norm_num [pyOr, listMax, listMin, List.foldl, scoreFn, pyMaxBy, max_def, min_def,
    eOptA, eOptB, porA, porB]

lemma eval_C6_growth : optimize_price [10, 12] 10 [1000, 1100] (some (-3/2)) 3 (1/50)
    .user_growth (1/2) = .ok (porC, [porC, porD]) := by
  rw [optimize_price, if_neg (by norm_num)]
  rw [show List.mapM (fun p => evaluate_price_option p 10 [1000, 1100] (some (-3/2)) 3 (1/50))
        [10, 12] = .ok [eOptA, eOptB] from by
    simp only [List.mapM, List.mapM.loop, eval_C6_e10, eval_C6_e12]
    rfl]
  norm_num [pyOr, listMax, listMin, List.foldl, scoreFn, pyMaxBy, max_def, min_def,
    eOptA, eOptB, porC, porD]

/-- Witness for C6: a two-price grid where the first candidate is optimal
for both objectives. -/
theorem claim_C6_witness :
    (optimize_price [10, 12] 10 [1000, 1100] (some (-3/2)) 3 (1/50) .profit (1/2)
        = .ok (porA, [porA, porB]) ∧
      (∀ r ∈ [porA, porB], r.profit ≤ porA.profit) ∧
        ∃ l1 l2, [porA, porB] = l1 ++ porA :: l2 ∧ ∀ r ∈ l1, r.score < porA.score) ∧
      (optimize_price [10, 12] 10 [1000, 1100] (some (-3/2)) 3 (1/50) .user_growth (1/2)
          = .ok (porC, [porC, porD]) ∧
        (∀ r ∈ [porC, porD], r.predicted_users ≤ porC.predicted_users) ∧
          ∃ l1 l2, [porC, porD] = l1 ++ porC :: l2 ∧ ∀ r ∈ l1, r.score < porC.score) :=
  ⟨⟨eval_C6_profit,
    claim_C6_optimize_price_ordering.1 [10, 12] 10 [1000, 1100] (some (-3/2)) 3 (1/50) (1/2)
      porA [porA, porB] eval_C6_profit⟩,
   ⟨eval_C6_growth,
    claim_C6_optimize_price_ordering.2 [10, 12] 10 [1000, 1100] (some (-3/2)) 3 (1/50) (1/2)
      porC [porC, porD] eval_C6_growth⟩⟩

lemma poisson_pmf_nonneg (k : ℕ) (lam : ℝ) : 0 ≤ poisson_pmf k lam := by
  rw [poisson_pmf]
  split
  · split <;> norm_num
  · exact (Real.exp_pos _).le

/-- For a positive rate the log-space pmf equals the textbook closed form. -/
lemma poisson_pmf_eq {lam : ℝ} (hlam : 0 < lam) (k : ℕ) :
    poisson_pmf k lam = Real.exp (-lam) * lam ^ k / (k.factorial : ℝ) := by
  rw [poisson_pmf, if_neg hlam.ne']
  rw [sub_eq_add_neg, Real.exp_add, Real.exp_add, Real.exp_nat_mul, Real.exp_log hlam,
    div_eq_mul_inv]
  congr 1
  rw [Real.exp_neg, Real.exp_log (by exact_mod_cast k.factorial_pos)]

lemma poisson_pmf_hasSum {lam : ℝ} (hlam : 0 < lam) :
    HasSum (fun k => poisson_pmf k lam) 1 := by
  have h := NormedSpace.expSeries_div_hasSum_exp ℝ lam
  rw [← Real.exp_eq_exp_ℝ] at h
  have h2 := h.mul_left (Real.exp (-lam))
  have h3 : Real.exp (-lam) * Real.exp lam = 1 := by
    rw [← Real.exp_add]
    simp
  rw [h3] at h2
  have hfun : (fun k => poisson_pmf k lam)
      = fun n => Real.exp (-lam) * (lam ^ n / (n.factorial : ℝ)) := by
    funext k
    rw [poisson_pmf_eq hlam, mul_div_assoc]
  rw [hfun]
  exact h2

lemma poisson_pmf_le_one {lam : ℝ} (hlam : 0 < lam) (k : ℕ) : poisson_pmf k lam ≤ 1 :=
  le_hasSum (poisson_pmf_hasSum hlam) k (fun j _ => poisson_pmf_nonneg j lam)

lemma poisson_pmf_succ {lam : ℝ} (hlam : 0 < lam) (k : ℕ) :
    poisson_pmf (k + 1) lam = poisson_pmf k lam * (lam / (k + 1)) := by
  rw [poisson_pmf_eq hlam, poisson_pmf_eq hlam, Nat.factorial_succ]
  have h1 : ((k : ℝ) + 1) ≠ 0 := by positivity
  have h2 : ((k.factorial : ℝ)) ≠ 0 := by exact_mod_cast k.factorial_pos.ne'
  push_cast
  field_simp
  ring

/-- Past 10·lam the pmf decays at least geometrically with ratio 1/10. -/
lemma poisson_pmf_decay {lam : ℝ} (hlam : 0 < lam) (m : ℕ) (hm : 10 * lam ≤ (m : ℝ) + 1) :
    ∀ d : ℕ, poisson_pmf (m + d) lam ≤ poisson_pmf m lam * (1 / 10) ^ d := by
  intro d
  induction d with
  | zero => simp
  | succ n ihn =>
      have hrat : lam / ((m + n : ℕ) + 1) ≤ 1 / 10 := by
        rw [div_le_div_iff (by positivity) (by norm_num)]
        push_cast
        nlinarith [Nat.cast_nonneg (α := ℝ) n]
      calc poisson_pmf (m + (n + 1)) lam = poisson_pmf ((m + n) + 1) lam := by ring_nf
        _ = poisson_pmf (m + n) lam * (lam / ((m + n : ℕ) + 1)) := poisson_pmf_succ hlam _
        _ ≤ (poisson_pmf m lam * (1 / 10) ^ n) * (1 / 10) :=
            mul_le_mul ihn hrat (div_nonneg hlam.le (by positivity))
              (mul_nonneg (poisson_pmf_nonneg m lam) (by positivity))
        _ = poisson_pmf m lam * (1 / 10) ^ (n + 1) := by ring

/-- Geometric tail bound: any index beyond 10·lam + 999 (and at least 1000)
already collects cdf mass at least 0.99. -/
lemma poisson_cdf_target (lam : ℝ) (hlam : 0 < lam) (N : ℕ)
    (hNr : lam * 10 + 999 < (N : ℝ)) (hN1000 : 1000 ≤ N) :
    99 / 100 ≤ poisson_cdf N lam := by
  have hmr : ((N - 500 : ℕ) : ℝ) = (N : ℝ) - 500 := by
    push_cast [Nat.cast_sub (by omega : 500 ≤ N)]
    ring
  have hm10 : 10 * lam ≤ ((N - 500 : ℕ) : ℝ) + 1 := by
    rw [hmr]
    nlinarith
  have hpmfN1 : poisson_pmf (N + 1) lam ≤ (1 / 10) ^ 501 := by
    have h1 : N + 1 = (N - 500) + 501 := by omega
    calc poisson_pmf (N + 1) lam = poisson_pmf ((N - 500) + 501) lam := by rw [h1]
      _ ≤ poisson_pmf (N - 500) lam * (1 / 10) ^ 501 :=
          poisson_pmf_decay hlam (N - 500) hm10 501
      _ ≤ 1 * (1 / 10) ^ 501 :=
          mul_le_mul_of_nonneg_right (poisson_pmf_le_one hlam _) (by positivity)
      _ = (1 / 10) ^ 501 := one_mul _
  have hm10m : 10 * lam ≤ ((N + 1 : ℕ) : ℝ) + 1 := by
    push_cast
    nlinarith
  have hsum := poisson_pmf_hasSum hlam
  have hsummable := hsum.summable
  have hsplit := sum_add_tsum_nat_add (f := fun k => poisson_pmf k lam) (N + 1) hsummable
  rw [hsum.tsum_eq] at hsplit
  have htail_le : tsum (fun i : ℕ => poisson_pmf (i + (N + 1)) lam)
      ≤ tsum (fun i : ℕ => poisson_pmf (N + 1) lam * (1 / 10) ^ i) := by
    apply tsum_le_tsum
    · intro i
      rw [Nat.add_comm i (N + 1)]
      exact poisson_pmf_decay hlam (N + 1) hm10m i
    · exact (summable_nat_add_iff (f := fun k => poisson_pmf k lam) (N + 1)).mpr hsummable
    · exact (summable_geometric_of_lt_one (by norm_num) (by norm_num)).mul_left _
  have hgeom : tsum (fun i : ℕ => poisson_pmf (N + 1) lam * (1 / 10) ^ i)
      = poisson_pmf (N + 1) lam * (1 - 1 / 10)⁻¹ := by
    rw [tsum_mul_left, tsum_geometric_of_lt_one (by norm_num) (by norm_num)]
  have htail_small : tsum (fun i : ℕ => poisson_pmf (i + (N + 1)) lam) ≤ 1 / 100 := by
    have h501 : ((1 : ℝ) / 10) ^ 501 ≤ (1 / 10) ^ 3 :=
      pow_le_pow_of_le_one (by norm_num) (by norm_num) (by norm_num)
    calc tsum (fun i : ℕ => poisson_pmf (i + (N + 1)) lam)
        ≤ poisson_pmf (N + 1) lam * (1 - 1 / 10)⁻¹ := by rw [← hgeom]; exact htail_le
      _ ≤ (1 / 10) ^ 501 * (1 - 1 / 10)⁻¹ :=
          mul_le_mul_of_nonneg_right hpmfN1 (by norm_num)
      _ ≤ (1 / 10) ^ 3 * (1 - 1 / 10)⁻¹ :=
          mul_le_mul_of_nonneg_right h501 (by norm_num)
      _ ≤ 1 / 100 := by norm_num
  rw [poisson_cdf]
  linarith [hsplit, htail_small]

/-- The linear capacity search always reaches coverage 0.99 within the
source upper bound `lam * 10 + 1000`. -/
lemma capacity_cdf_bound (lam : ℝ) (hlam0 : 0 ≤ lam) :
    99 / 100 ≤ poisson_cdf (capacity_upper_bound lam) lam := by
  rcases eq_or_lt_of_le hlam0 with hz | hlam
  · -- lam = 0: the cdf is already 1 at 0
    rw [← hz, poisson_cdf]
    have hsum : ∑ i ∈ Finset.range (capacity_upper_bound 0 + 1), poisson_pmf i 0 = 1 := by
      rw [Finset.sum_eq_single 0]
      · rw [poisson_pmf, if_pos rfl, if_pos rfl]
      · intro b _ hb
        rw [poisson_pmf, if_pos rfl, if_neg hb]
      · intro h
        exact absurd (Finset.mem_range.mpr (Nat.succ_pos _)) h
    rw [hsum]
    norm_num
  · have hfl : lam * 10 + 999 < (⌊lam * 10 + 1000⌋ : ℝ) := by
      have := Int.sub_one_lt_floor (lam * 10 + 1000)
      linarith
    have hflnn : 0 ≤ ⌊lam * 10 + 1000⌋ := Int.floor_nonneg.mpr (by positivity)
    have hNval : capacity_upper_bound lam = (⌊lam * 10 + 1000⌋).toNat := by
      rw [capacity_upper_bound, if_pos hlam]
    have hcast : (((⌊lam * 10 + 1000⌋).toNat : ℕ) : ℝ) = ((⌊lam * 10 + 1000⌋ : ℤ) : ℝ) := by
      exact_mod_cast Int.toNat_of_nonneg hflnn
    have hNr : lam * 10 + 999 < ((capacity_upper_bound lam : ℕ) : ℝ) := by
      rw [hNval, hcast]
      exact hfl
    have hN1000 : 1000 ≤ capacity_upper_bound lam := by
      by_contra hcon
      push_neg at hcon
      have h999 : capacity_upper_bound lam ≤ 999 := by omega
      have h999r : ((capacity_upper_bound lam : ℕ) : ℝ) ≤ 999 := by exact_mod_cast h999
      nlinarith
    exact poisson_cdf_target lam hlam _ hNr hN1000

/-- Loop semantics of the `while C <= upper_bound` search: the result is
bounded, everything strictly before it misses the coverage target, and if the
loop broke before exhausting its positions the result meets the target. -/
lemma capacity_search_spec (lam p : ℝ) : ∀ (fuel c : ℕ),
    c ≤ capacity_search lam p c fuel ∧
      capacity_search lam p c fuel ≤ c + fuel ∧
      (∀ j, c ≤ j → j < capacity_search lam p c fuel → poisson_cdf j lam < p) ∧
      (capacity_search lam p c fuel < c + fuel →
        p ≤ poisson_cdf (capacity_search lam p c fuel) lam) := by
  intro fuel
  induction fuel with
  | zero =>
      intro c
      rw [capacity_search]
      exact ⟨le_rfl, by omega, fun j h1 h2 => absurd h2 (by omega), fun h => absurd h (by omega)⟩
  | succ n ih =>
      intro c
      rw [capacity_search]
      by_cases hc : p ≤ poisson_cdf c lam
      · rw [if_pos hc]
        exact ⟨le_rfl, by omega, fun j h1 h2 => absurd h2 (by omega), fun _ => hc⟩
      · rw [if_neg hc]
        obtain ⟨ih1, ih2, ih3, ih4⟩ := ih (c + 1)
        refine ⟨by omega, by omega, ?_, fun h => ih4 (by omega)⟩
        intro j h1 h2
        rcases eq_or_lt_of_le h1 with rfl | h1'
        · exact not_le.mp hc
        · exact ih3 j (by omega) h2

/-- C8: for non-negative inputs and the default coverage 0.99, the capacity
returned by `forecast_server_load_one_step` is the minimal integer whose
Poisson cdf meets the coverage target. -/
theorem claim_C8_capacity_minimal (u r : ℝ) (hu : 0 ≤ u) (hr : 0 ≤ r) :
    ∃ diag, forecast_server_load_one_step u r (99 / 100) = .ok (u * r, diag) ∧
      99 / 100 ≤ poisson_cdf diag.capacity_for_coverage (u * r) ∧
      (0 < diag.capacity_for_coverage →
        poisson_cdf (diag.capacity_for_coverage - 1) (u * r) < 99 / 100) := by
  have hlam0 : 0 ≤ u * r := mul_nonneg hu hr
  obtain ⟨s1, s2, s3, s4⟩ :=
    capacity_search_spec (u * r) (99 / 100) (capacity_upper_bound (u * r) + 1) 0
  have hbound := capacity_cdf_bound (u * r) hlam0
  have hlt : capacity_search (u * r) (99 / 100) 0 (capacity_upper_bound (u * r) + 1)
      < 0 + (capacity_upper_bound (u * r) + 1) := by
    rcases lt_or_eq_of_le s2 with h | h
    · exact h
    · exact absurd hbound (not_le.mpr (s3 (capacity_upper_bound (u * r)) (by omega) (by omega)))
  have hcov := s4 hlt
  have hmin : 0 < capacity_search (u * r) (99 / 100) 0 (capacity_upper_bound (u * r) + 1) →
      poisson_cdf (capacity_search (u * r) (99 / 100) 0 (capacity_upper_bound (u * r) + 1) - 1)
        (u * r) < 99 / 100 :=
    fun hpos => s3 _ (Nat.zero_le _) (by omega)
  rw [forecast_server_load_one_step, if_neg (not_lt.mpr hu), if_neg (not_lt.mpr hr)]
  exact ⟨_, rfl, hcov, hmin⟩

/-- Witness for C8 at zero forecast users and zero request rate (rate 0, the
capacity search stops at 0 where the cdf is already 1). -/
theorem claim_C8_witness :
    (0 : ℝ) ≤ 0 ∧
      ∃ diag, forecast_server_load_one_step 0 0 (99 / 100) = .ok (0 * 0, diag) ∧
        99 / 100 ≤ poisson_cdf diag.capacity_for_coverage (0 * 0) ∧
        (0 < diag.capacity_for_coverage →
          poisson_cdf (diag.capacity_for_coverage - 1) (0 * 0) < 99 / 100) :=
  ⟨le_refl 0, claim_C8_capacity_minimal 0 0 (le_refl 0) (le_refl 0)⟩

lemma exp_neg_004_lt_one : Real.exp (-(0.04)) < 1 := Real.exp_lt_one_iff.mpr (by norm_num)

/-- The month-1 user update of the end-to-end example: the decayed growth
0.08·e^(−0.04) already applies in month 1, so the users become
970 + 80·e^(−0.04) ≈ 1046.86, not 1050. -/
lemma cfgC1_users1 :
    max (cfgC1.initial_users + cfgC1.initial_users * dynamic_growth 1 cfgC1.growth_rate
        - cfgC1.initial_users * dynamic_churn cfgC1 cfgC1.monthly_price cfgC1.churn_rate) 0
      = 970 + 80 * Real.exp (-(0.04)) := by
  have hE : (0 : ℝ) < Real.exp (-(0.04)) := Real.exp_pos _
  have hg : dynamic_growth 1 cfgC1.growth_rate = 0.08 * Real.exp (-(0.04)) := by
    rw [dynamic_growth]
    norm_num [cfgC1, defaultParams]
  have hc : dynamic_churn cfgC1 cfgC1.monthly_price cfgC1.churn_rate = 0.03 := by
    rw [dynamic_churn]
    norm_num [cfgC1, defaultParams]
  rw [hg, hc, max_eq_left (by norm_num [cfgC1, defaultParams]; nlinarith)]
  norm_num [cfgC1, defaultParams]
  ring

/-- The first simulated month of the end-to-end example configuration. -/
lemma run_once_cfgC1 {σ : Type} (rng : NumpyRandom σ) (seed : Option ℕ) (g : σ) :
    ∃ mets gF, run_once rng cfgC1 .flatMonthly seed g = .ok (mets, gF) ∧
      mets.revenues.head? = some ((970 + 80 * Real.exp (-(0.04))) * 10) ∧
      mets.profits.head? = some ((970 + 80 * Real.exp (-(0.04))) * 10
        - (970 + 80 * Real.exp (-(0.04))) * 10 * dynamic_cost_ratio 1000 0.6) := by
  have hca := calculate_revenue_ok rng .flatMonthly cfgC1 cfgC1.monthly_price rfl
  obtain ⟨v, revs, profs, uF, cF, gF, g2, hv, hloop⟩ :=
    simLoop_head rng cfgC1 .flatMonthly cfgC1.growth_rate cfgC1.churn_rate cfgC1.cost_ratio
      cfgC1.monthly_price hca 2 1 cfgC1.initial_users cfgC1.churn_rate
      (match seed with | some s => rng.seedFn s | none => g)
  simp only [calculate_revenue, Except.ok.injEq, Prod.mk.injEq] at hv
  have hv1 : v = (970 + 80 * Real.exp (-(0.04))) * 10 := by
    rw [← hv.1, cfgC1_users1]
    norm_num [cfgC1, defaultParams]
  simp only [run_once, effective_price_per_user]
  rw [show cfgC1.months.toNat = 2 + 1 from rfl, hloop]
  refine ⟨_, _, rfl, ?_, ?_⟩
  · simp [hv1]
  · simp only [List.head?_cons, Option.some.injEq, hv1]
    norm_num [cfgC1, defaultParams]

/-- C1 counterexample: in the end-to-end example the first month does not
yield 1050 users (the growth is already decayed by e^(−0.04) in month 1), and
the first revenue of the seeded run is not 10500. -/
theorem claim_C1_counterexample :
    max (cfgC1.initial_users + cfgC1.initial_users * dynamic_growth 1 cfgC1.growth_rate
        - cfgC1.initial_users * dynamic_churn cfgC1 cfgC1.monthly_price cfgC1.churn_rate) 0
      ≠ 1050 ∧
    (run_once unitRng cfgC1 .flatMonthly (some 42) ()).map
        (fun pr => pr.1.revenues.head?) ≠ .ok (some 10500) := by
  have hlt : (970 + 80 * Real.exp (-(0.04))) < 1050 := by
    nlinarith [exp_neg_004_lt_one, Real.exp_pos (-(0.04 : ℝ))]
  constructor
  · rw [cfgC1_users1]
    exact ne_of_lt hlt
  · obtain ⟨mets, gF, h1, h2, -⟩ := run_once_cfgC1 unitRng (some 42) ()
    rw [h1]
    simp only [Except.map, h2, ne_eq, Except.ok.injEq, Option.some.injEq]
    nlinarith [hlt]

/-- C1 (amended): with the example configuration (months 3, 1000 users,
growth 0.08, churn 0.03, price 10, cost ratio 0.6), FlatMonthly and seed 42,
the first simulated month yields users = 970 + 80·e^(−0.04) ≈ 1046.86
(< 1050: the growth decay applies in month 1), revenue = users × 10 ≈ 10468.6
(< 10500), cost = revenue × dynamic_cost_ratio(1000, 0.6) (the dynamic ratio
≈ 0.5549, strictly below the flat 0.6, so cost ≈ 5809.4 ≠ 6300) and
profit = revenue − cost. -/
theorem claim_C1_first_month (σ : Type) (rng : NumpyRandom σ) (g : σ) :
    ∃ mets gF, run_once rng cfgC1 .flatMonthly (some 42) g = .ok (mets, gF) ∧
      mets.revenues.head? = some ((970 + 80 * Real.exp (-(0.04))) * 10) ∧
      mets.profits.head? = some ((970 + 80 * Real.exp (-(0.04))) * 10
        - (970 + 80 * Real.exp (-(0.04))) * 10 * dynamic_cost_ratio 1000 0.6) ∧
      (970 + 80 * Real.exp (-(0.04))) * 10 < 10500 ∧
      dynamic_cost_ratio 1000 0.6 < 0.6 := by
  obtain ⟨mets, gF, h1, h2, h3⟩ := run_once_cfgC1 rng (some 42) g
  refine ⟨mets, gF, h1, h2, h3, ?_, ?_⟩
  · nlinarith [exp_neg_004_lt_one, Real.exp_pos (-(0.04 : ℝ))]
  · rw [dynamic_cost_ratio]
    have hlb := Real.logb_pos (by norm_num : (1 : ℝ) < 10) (by norm_num : (1 : ℝ) < 1000 + 10)
    norm_num at hlb ⊢
    nlinarith [hlb]

/-- C9: `run_once` is deterministic given a seed — with the same seed,
configuration and model, the result does not depend on the incoming state of
the global generator, so two calls yield identical trajectories and metrics. -/
theorem claim_C9_run_once_deterministic (σ : Type) (rng : NumpyRandom σ) (cfg : Params)
    (m : PricingVariant) (s : ℕ) (g1 g2 : σ) :
    run_once rng cfg m (some s) g1 = run_once rng cfg m (some s) g2 := rfl

end Module6
